import Mathlib

/-
Shallow embedding of src/src/main.py (frame-semantic parser training script).

The network itself (models.BiLSTM, file models.py) and the torchtext batching
collaborators are external to src/: they are abstracted as parameters of the
embedding, except where a claim needs their behavior, in which case the
definition is modelled from the spec and marked as such.

Floating-point values of the source are embedded as rationals (ℚ); tensors of
probabilities/logits as lists of rows; binary label tensors as lists of rows of
Bool.
-/

namespace FrameParser

/-- Real-valued matrices (logits, post-sigmoid probabilities): list of rows. -/
abbrev Mat := List (List ℚ)

/-- Binary label matrices (y_true / y_pred accumulators): list of rows. -/
abbrev BMat := List (List Bool)

/-- PyTorch module mode, set by model.train() / model.eval(). -/
inductive Mode where
  | train : Mode
  | eval : Mode
deriving DecidableEq

/-- The two phases of each epoch of train_model (main.py line 62). -/
inductive Phase where
  | train : Phase
  | val : Phase
deriving DecidableEq

/-- frame_classes (main.py line 37). -/
def frame_classes : List String :=
  ["PERSON", "LOC", "ORG", "WORK_OF_ART", "PRODUCT", "EVENT", "OTHER"]

/-- no_of_classes (main.py line 38). -/
def no_of_classes : ℕ := frame_classes.length

/-- One batch yielded by a dataloader: `(inputs, labels)` (main.py line 76).
`labelCols` is `labels`, the per-class label columns (one list of length
batch-size per frame class); `size0` is `inputs.size(0)`: the first dimension
of the TEXT tensor, which — since TEXT = Field(sequential=True, ...) leaves
torchtext's default batch_first=False (main.py line 182) — is the padded
sequence length of the batch, not the number of examples. -/
structure Batch (I : Type) where
  inputs : I
  labelCols : List (List Bool)
  size0 : ℕ

/-- The number of examples a batch holds: the length of its label columns,
which is the number of rows of the target matrix torch.stack(labels, dim=1)
builds from them. -/
def Batch.numExamples {I : Type} (b : Batch I) : ℕ := (b.labelCols.headD []).length

/-- The external collaborators used by train_model and test_model:
the network forward (models.py, not under src/), the loss criterion
(nn.BCEWithLogitsLoss), the optimizer step (optim.Adam, taking the current
learning rate), the dataset sizes (len(dataloaders[x].dataset), main.py
line 55) and the per-epoch batch streams of the dataloaders. -/
structure Ext (W I : Type) where
  fwdEval : W → I → Mat × Mat
  fwdDrop : W → List ℚ → I → (Mat × Mat) × List ℚ
  criterion : Mat → BMat → ℚ
  optStep : ℚ → W → I → BMat → List ℚ → W
  datasetSize : Phase → ℕ
  batches : ℕ → Phase → List (Batch I)

/-- Modelled from the spec: the forward pass `model(inputs)` lives in
models.py, which is not under src/. Per spec §4.1 dropout is "active only
during training", so the eval-mode forward consults no randomness and leaves
the randomness stream untouched, while the train-mode forward may consume it.
Returns ((outputs, pred), remaining randomness stream). -/
def modelForward {W I : Type} (E : Ext W I) (mode : Mode) (w : W) (rng : List ℚ)
    (x : I) : (Mat × Mat) × List ℚ :=
  match mode with
  | Mode.train => E.fwdDrop w rng x
  | Mode.eval => (E.fwdEval w x, rng)

/-- torch.stack(labels, dim=1) (main.py lines 78 and 152): turns the list of
per-class label columns into the (batch × classes) target matrix. -/
def stackDim1 (cols : List (List Bool)) : BMat :=
  (List.range (cols.headD []).length).map (fun i => cols.map (fun c => c.getD i false))

/-- torch.where(pred > t, ones, zeros), entrywise, at an arbitrary threshold t
(the source fixes t = 0.4; the generalization is for the monotonicity claim). -/
def thresholdPred (t : ℚ) (m : Mat) : BMat :=
  m.map (fun row => row.map (fun p => decide (t < p)))

/-- predicted = torch.where(pred > 0.4, ones, zeros) (main.py lines 90 and 158). -/
def predictMatrix (m : Mat) : BMat := thresholdPred (0.4 : ℚ) m

/-- One progress log line (main.py lines 105-110). `count` is the logged
`(batch_idx + 1) * len(labels)`; `percent` is `100. * (batch_idx + 1) /
len(dataloaders[phase])`. -/
structure LogLine where
  epoch : ℕ
  count : ℕ
  total : ℕ
  percent : ℚ
  loss : ℚ
deriving DecidableEq

/-- Accumulator of one phase of one epoch (main.py lines 69-110): the live
model weights, the randomness stream, running_loss, the y_true and y_pred
matrices and the emitted progress log lines. `examplesSeen` is a
specification ghost, not in the source: the number of examples actually
processed so far (the running sum of the batches' example counts, each the
length of the batch's label columns). -/
structure PhaseAcc (W : Type) where
  w : W
  rng : List ℚ
  running_loss : ℚ
  y_true : BMat
  y_pred : BMat
  logs : List LogLine
  examplesSeen : ℕ

/-- The body of the batch loop (main.py lines 76-110): forward pass,
thresholded prediction, loss, optimizer step in the train phase, accumulation
of y_true / y_pred / running_loss, and the progress log every 50 batches of
the train phase. `lr` is the optimizer's current learning rate, `dsSize` is
dataset_sizes[phase], `nBatches` is len(dataloaders[phase]). -/
def processBatch {W I : Type} (E : Ext W I) (phase : Phase) (lr : ℚ)
    (dsSize nBatches epoch : ℕ) (acc : PhaseAcc W) (ib : ℕ × Batch I) :
    PhaseAcc W :=
  let batch_idx := ib.1
  let b := ib.2
  let targets := stackDim1 b.labelCols
  let mode := if phase = Phase.train then Mode.train else Mode.eval
  let fwd := modelForward E mode acc.w acc.rng b.inputs
  let predicted := predictMatrix fwd.1.2
  let loss := E.criterion fwd.1.1 targets
  let w' := if phase = Phase.train then E.optStep lr acc.w b.inputs targets acc.rng else acc.w
  let logs' :=
    if phase = Phase.train ∧ batch_idx % 50 = 0 then
      acc.logs ++ [⟨epoch + 1, (batch_idx + 1) * b.labelCols.length, dsSize,
        100 * ((batch_idx : ℚ) + 1) / (nBatches : ℚ), loss⟩]
    else acc.logs
  { w := w'
    rng := fwd.2
    running_loss := acc.running_loss + loss * (b.size0 : ℚ)
    y_true := acc.y_true ++ targets
    y_pred := acc.y_pred ++ predicted
    logs := logs'
    examplesSeen := acc.examplesSeen + b.numExamples }

/-- Specification-side companion of the batch loop: the sequence of
(batch loss, inputs.size(0)) pairs produced while folding the loop over the
enumerated batches, replaying the same weight and randomness evolution as
processBatch. -/
def batchLossList {W I : Type} (E : Ext W I) (phase : Phase) (lr : ℚ) :
    W → List ℚ → List (ℕ × Batch I) → List (ℚ × ℕ)
  | _, _, [] => []
  | w, rng, ib :: rest =>
    let b := ib.2
    let targets := stackDim1 b.labelCols
    let mode := if phase = Phase.train then Mode.train else Mode.eval
    let fwd := modelForward E mode w rng b.inputs
    let loss := E.criterion fwd.1.1 targets
    let w' := if phase = Phase.train then E.optStep lr w b.inputs targets rng else w
    (loss, b.size0) :: batchLossList E phase lr w' fwd.2 rest

/-- Entrywise paired count over two binary matrices (rows zipped, entries
zipped): counts positions where `f true-entry pred-entry` holds. -/
def pairCount (f : Bool → Bool → Bool) (yt yp : BMat) : ℕ :=
  ((yt.zip yp).map (fun rp => (rp.1.zip rp.2).countP (fun e => f e.1 e.2))).sum

/-- sklearn.metrics.accuracy_score on multilabel data: subset accuracy, the
fraction of examples whose predicted row matches the true row exactly. -/
def accuracy_score (yt yp : BMat) : ℚ :=
  (((yt.zip yp).countP (fun rp => decide (rp.1 = rp.2)) : ℚ)) / ((yt.length : ℚ))

/-- Micro-averaged precision (spec glossary: true/false positives summed
across all classes before the ratio): TP / (TP + FP); 0 when the denominator
is 0, as sklearn reports with its zero-division handling. -/
def microPrecision (yt yp : BMat) : ℚ :=
  ((pairCount (fun t p => t && p) yt yp : ℚ)) /
    ((pairCount (fun t p => t && p) yt yp + pairCount (fun t p => !t && p) yt yp : ℕ) : ℚ)

/-- Micro-averaged recall: TP / (TP + FN); 0 when the denominator is 0. -/
def microRecall (yt yp : BMat) : ℚ :=
  ((pairCount (fun t p => t && p) yt yp : ℚ)) /
    ((pairCount (fun t p => t && p) yt yp + pairCount (fun t p => t && !p) yt yp : ℕ) : ℚ)

/-- Micro-averaged F1: 2·TP / (2·TP + FP + FN); 0 when the denominator is 0. -/
def microF1 (yt yp : BMat) : ℚ :=
  ((2 * pairCount (fun t p => t && p) yt yp : ℕ) : ℚ) /
    ((2 * pairCount (fun t p => t && p) yt yp + pairCount (fun t p => !t && p) yt yp
      + pairCount (fun t p => t && !p) yt yp : ℕ) : ℚ)

/-- What `model.state_dict()` evaluates to in this program. In PyTorch,
`model.state_dict()` returns an OrderedDict whose values are the live
parameter tensors themselves — references, not copies — and
`optimizer.step()` mutates those tensors in place. So a state dict held
across further training aliases the current weights (`ref`); only an
explicitly detached copy (e.g. the bytes serialized to disk by torch.save at
the moment of the call) pins a value (`detached`). -/
inductive StateDict (W : Type) where
  | ref : StateDict W
  | detached : W → StateDict W
deriving DecidableEq

/-- Reading the values behind a state dict, given the current live weights:
a `ref` yields the live weights as they are now, a detached copy yields its
stored snapshot. -/
def derefStateDict {W : Type} (live : W) : StateDict W → W
  | StateDict.ref => live
  | StateDict.detached w => w

/-- The state of torch.optim.lr_scheduler.StepLR as configured in main
(main.py line 209): decay period and factor. -/
structure StepLRState where
  stepSize : ℕ
  gamma : ℚ
deriving DecidableEq

/-- The mutable state of train_model (main.py lines 51-57 and the loop):
the live model weights, the randomness stream, the optimizer's learning rate,
the scheduler object, best_model_wts (a state dict, see StateDict), the best
metrics, the content of the persisted checkpoint file
./models/<model_name>.pt written by this run (none before the first save),
model_loss for both phases, and the ghost trace of progress log lines. -/
structure TrainState (W : Type) where
  weights : W
  rng : List ℚ
  optLr : ℚ
  sched : StepLRState
  best_model_wts : StateDict W
  best_acc : ℚ
  best_precision : ℚ
  best_recall : ℚ
  best_f1 : ℚ
  checkpointFile : Option W
  lossTrain : List ℚ
  lossVal : List ℚ
  logs : List LogLine

/-- Initial train_model state (main.py lines 53-56): best_model_wts =
model.state_dict() (a reference to the live parameters), all best metrics
0.0, model_loss = [0, ..., 0] per phase. -/
def initTrainState {W : Type} (w0 : W) (rng0 : List ℚ) (lr : ℚ)
    (sched : StepLRState) (num_epochs : ℕ) : TrainState W :=
  { weights := w0
    rng := rng0
    optLr := lr
    sched := sched
    best_model_wts := StateDict.ref
    best_acc := 0
    best_precision := 0
    best_recall := 0
    best_f1 := 0
    checkpointFile := none
    lossTrain := List.replicate num_epochs 0
    lossVal := List.replicate num_epochs 0
    logs := [] }

/-- The batch loop of one phase of one epoch (main.py lines 69-110), folded
over the enumerated batches of the phase's dataloader. -/
def phaseFold {W I : Type} (E : Ext W I) (epoch : ℕ) (phase : Phase)
    (s : TrainState W) : PhaseAcc W :=
  List.foldl
    (processBatch E phase s.optLr (E.datasetSize phase) (E.batches epoch phase).length epoch)
    ⟨s.weights, s.rng, 0, [], [], [], 0⟩ ((E.batches epoch phase).enum)

/-- One phase of one epoch of train_model (main.py lines 62-128):
model.train()/model.eval() (encoded as the mode used by the batch loop), the
batch loop, epoch_loss = running_loss / dataset_sizes[phase], the epoch
metrics, recording model_loss[phase][epoch], and — when the phase is val and
epoch_f1 > best_f1 — updating the best metrics, re-binding best_model_wts to
model.state_dict() (again a reference) and persisting
torch.save(best_model_wts, "./models/<model_name>.pt"), which serializes the
values the state dict holds at this moment. -/
def runEpochPhase {W I : Type} (E : Ext W I) (epoch : ℕ) (phase : Phase)
    (s : TrainState W) : TrainState W :=
  let a := phaseFold E epoch phase s
  let epoch_loss := a.running_loss / ((E.datasetSize phase : ℕ) : ℚ)
  let epoch_acc := accuracy_score a.y_true a.y_pred
  let epoch_precision := microPrecision a.y_true a.y_pred
  let epoch_recall := microRecall a.y_true a.y_pred
  let epoch_f1 := microF1 a.y_true a.y_pred
  let s1 : TrainState W :=
    { s with
      weights := a.w
      rng := a.rng
      lossTrain := if phase = Phase.train then s.lossTrain.set epoch epoch_loss else s.lossTrain
      lossVal := if phase = Phase.val then s.lossVal.set epoch epoch_loss else s.lossVal
      logs := s.logs ++ a.logs }
  if phase = Phase.val ∧ epoch_f1 > s.best_f1 then
    { s1 with
      best_acc := epoch_acc
      best_f1 := epoch_f1
      best_precision := epoch_precision
      best_recall := epoch_recall
      best_model_wts := StateDict.ref
      checkpointFile := some (derefStateDict a.w StateDict.ref) }
  else s1

/-- One epoch of train_model: the train phase then the val phase
(main.py line 62). The scheduler is never stepped: the call
scheduler.step() is commented out in the source (main.py line 64). -/
def runEpoch {W I : Type} (E : Ext W I) (epoch : ℕ) (s : TrainState W) :
    TrainState W :=
  runEpochPhase E epoch Phase.val (runEpochPhase E epoch Phase.train s)

/-- train_model (main.py lines 41-141): the epoch loop, then
model.load_state_dict(best_model_wts) (reading the values the state dict
refers to now) and the return of
(model, model_loss, best_precision, best_recall, best_f1). -/
def trainModel {W I : Type} (E : Ext W I) (num_epochs : ℕ)
    (s0 : TrainState W) : TrainState W × (List ℚ × List ℚ) × ℚ × ℚ × ℚ :=
  let s := (List.range num_epochs).foldl (fun t e => runEpoch E e t) s0
  let sFinal := { s with weights := derefStateDict s.weights s.best_model_wts }
  (sFinal, (sFinal.lossTrain, sFinal.lossVal), sFinal.best_precision,
    sFinal.best_recall, sFinal.best_f1)

/-- A model object as passed around in main: its learnable parameters and its
train/eval mode flag. -/
structure ModelObj (W : Type) where
  params : W
  mode : Mode

/-- The body of the test_model batch loop (main.py lines 151-161): stack the
labels, forward pass in the given mode, threshold at 0.4, append to the
accumulated (y_true, y_pred); the randomness stream is threaded through the
forward. No loss, no optimizer. -/
def testStep {W I : Type} (E : Ext W I) (mode : Mode) (w : W)
    (acc : (BMat × BMat) × List ℚ) (b : Batch I) : (BMat × BMat) × List ℚ :=
  let targets := stackDim1 b.labelCols
  let fwd := modelForward E mode w acc.2 b.inputs
  let predicted := predictMatrix fwd.1.2
  ((acc.1.1 ++ targets, acc.1.2 ++ predicted), fwd.2)

/-- test_model (main.py lines 144-170): model.eval(), the batch loop under
torch.no_grad(), then accuracy and micro precision/recall/F1 over the
accumulated matrices. Returns the model object as it is afterwards, the
(y_true, y_pred) pair the source returns, and the printed metric tuple. -/
def testModel {W I : Type} (E : Ext W I) (m : ModelObj W) (rng : List ℚ)
    (test_loader : List (Batch I)) :
    ModelObj W × (BMat × BMat) × (ℚ × ℚ × ℚ × ℚ) :=
  let m1 : ModelObj W := { m with mode := Mode.eval }
  let r := test_loader.foldl (testStep E m1.mode m1.params) (([], []), rng)
  (m1, r.1,
    (accuracy_score r.1.1 r.1.2, microPrecision r.1.1 r.1.2,
      microRecall r.1.1 r.1.2, microF1 r.1.1 r.1.2))

/-- The recognized configuration surface (main.py lines 262-286), with the
source's defaults noted there: batch_size, test, epochs, lr, weight_decay,
dropout, momentum, step, gamma, hidden_size, num_layers, attention. -/
structure Config where
  batch_size : ℕ
  test : Bool
  epochs : ℕ
  lr : ℚ
  weight_decay : ℚ
  dropout : ℚ
  momentum : ℚ
  step : ℕ
  gamma : ℚ
  hidden_size : ℕ
  num_layers : ℕ
  attention : Bool

/-- The external collaborators of main (main.py lines 173-258): the model
constructor models.BiLSTM(embedding_dim=50, hidden_dim, vocab, label_size,
device, dropout, attention_layer) abstracted over the configured arguments it
receives, the forward passes and criterion, the Adam step family indexed by
the current learning rate, the dataloader construction from batch_size, the
dataset sizes, the test loader, the prior content of
./models/<model_name>.pt for the test branch, and the ambient randomness. -/
structure MainEnv (W I : Type) where
  initModel : ℕ → ℚ → Bool → W
  fwdEval : W → I → Mat × Mat
  fwdDrop : W → List ℚ → I → (Mat × Mat) × List ℚ
  criterion : Mat → BMat → ℚ
  adamStep : ℚ → W → I → BMat → List ℚ → W
  mkLoaders : ℕ → ℕ → Phase → List (Batch I)
  dsSize : Phase → ℕ
  testLoader : ℕ → List (Batch I)
  savedCheckpoint : String → W
  rng0 : List ℚ

/-- The observable outcome of one run of main: the chosen model name, the
value returned by train_model (train branch), the loss curves handed to
visualize.plot_loss, and test_model's output (test branch). -/
structure MainResult (W : Type) where
  model_name : String
  trainOut : Option (TrainState W × (List ℚ × List ℚ) × ℚ × ℚ × ℚ)
  plotData : Option (List ℚ × List ℚ)
  testOut : Option ((BMat × BMat) × (ℚ × ℚ × ℚ × ℚ))

/-- main (main.py lines 173-258): choose the model name from the attention
flag, construct the model from hidden_size/dropout/attention, the Adam
optimizer with lr=args.lr, the StepLR scheduler with step_size=args.step and
gamma=args.gamma; then either train (not args.test) over loaders built with
args.batch_size for args.epochs epochs and plot the loss curves, or load the
checkpoint and evaluate. args.momentum, args.weight_decay and
args.num_layers are parsed but appear nowhere in this flow, and train_model
receives args but never reads it. -/
def mainRun {W I : Type} (M : MainEnv W I) (cfg : Config) : MainResult W :=
  let model_name := if cfg.attention then "BiLSTM_AttentionNetwork" else "BiLSTMNetwork"
  let w0 := M.initModel cfg.hidden_size cfg.dropout cfg.attention
  let E : Ext W I :=
    { fwdEval := M.fwdEval
      fwdDrop := M.fwdDrop
      criterion := M.criterion
      optStep := M.adamStep
      datasetSize := M.dsSize
      batches := M.mkLoaders cfg.batch_size }
  let sched : StepLRState := { stepSize := cfg.step, gamma := cfg.gamma }
  if cfg.test then
    let wSaved := M.savedCheckpoint model_name
    let t := testModel E { params := wSaved, mode := Mode.train } M.rng0
      (M.testLoader cfg.batch_size)
    { model_name := model_name, trainOut := none, plotData := none,
      testOut := some (t.2.1, t.2.2) }
  else
    let s0 := initTrainState w0 M.rng0 cfg.lr sched cfg.epochs
    let r := trainModel E cfg.epochs s0
    { model_name := model_name, trainOut := some r,
      plotData := some (r.1.lossTrain, r.1.lossVal), testOut := none }

/-- The learning-rate schedule the claim asserts, following the spec's words
("step — learning-rate decay period, gamma — decay factor"): after e epochs
the initial rate has been multiplied by gamma once per completed period.
Specification-side definition, for comparison with the embedded code. -/
def specDecayedLr (lr0 gamma : ℚ) (stp e : ℕ) : ℚ := lr0 * gamma ^ (e / stp)

/-- Number of positive entries of a binary prediction matrix. -/
def countPos (b : BMat) : ℕ := (b.map (fun row => row.countP (fun x => x = true))).sum

/-- Subset-accuracy of one phase of one epoch. -/
def phaseAccScore {W I : Type} (E : Ext W I) (epoch : ℕ) (phase : Phase)
    (s : TrainState W) : ℚ :=
  accuracy_score (phaseFold E epoch phase s).y_true (phaseFold E epoch phase s).y_pred

/-- Micro precision of one phase of one epoch. -/
def phasePrecision {W I : Type} (E : Ext W I) (epoch : ℕ) (phase : Phase)
    (s : TrainState W) : ℚ :=
  microPrecision (phaseFold E epoch phase s).y_true (phaseFold E epoch phase s).y_pred

/-- Micro recall of one phase of one epoch. -/
def phaseRecall {W I : Type} (E : Ext W I) (epoch : ℕ) (phase : Phase)
    (s : TrainState W) : ℚ :=
  microRecall (phaseFold E epoch phase s).y_true (phaseFold E epoch phase s).y_pred

/-- Micro F1 of one phase of one epoch (the epoch_f1 of main.py line 114). -/
def phaseF1 {W I : Type} (E : Ext W I) (epoch : ℕ) (phase : Phase)
    (s : TrainState W) : ℚ :=
  microF1 (phaseFold E epoch phase s).y_true (phaseFold E epoch phase s).y_pred

/-- A minimal concrete environment (weights: a counter; inputs: unit;
loaders: empty), used to instantiate universally quantified theorems at a
concrete input. -/
def probeEnv : Ext ℕ Unit :=
  { fwdEval := fun _ _ => ([[1]], [[1]])
    fwdDrop := fun _ r _ => (([[1]], [[1]]), r)
    criterion := fun _ _ => 1
    optStep := fun _ w _ _ _ => w
    datasetSize := fun _ => 1
    batches := fun _ _ => [] }

/-- A concrete environment with one two-example batch per phase and unit
batch loss, used to instantiate universally quantified theorems at a
concrete input. -/
def probeBatchEnv : Ext ℕ Unit :=
  { fwdEval := fun _ _ => ([[1]], [[1]])
    fwdDrop := fun _ r _ => (([[1]], [[1]]), r)
    criterion := fun _ _ => 1
    optStep := fun _ w _ _ _ => w
    datasetSize := fun _ => 2
    batches := fun _ _ => [{ inputs := (), labelCols := [[true, false]], size0 := 2 }] }

/-- A concrete instantiation whose single training batch holds 2 examples
(one label column of length 2) but whose TEXT tensor has padded sequence
length 5 (inputs.size(0) = 5, batch_first=False), with unit batch loss. -/
def padEnv : Ext ℕ Unit :=
  { fwdEval := fun _ _ => ([[1]], [[1]])
    fwdDrop := fun _ r _ => (([[1]], [[1]]), r)
    criterion := fun _ _ => 1
    optStep := fun _ w _ _ _ => w
    datasetSize := fun _ => 2
    batches := fun _ _ => [{ inputs := (), labelCols := [[true, false]], size0 := 5 }] }

/-- Label columns of a single-example batch whose only positive class is the
first one (7 frame classes, 1 example). -/
def oneHotLabels : List (List Bool) :=
  [[true], [false], [false], [false], [false], [false], [false]]

/-- Probabilities output by the concrete network of aliasEnv: while the
single counter weight is at most 1 the network predicts the first class with
probability 1 (matching oneHotLabels exactly), afterwards it predicts
nothing. -/
def aliasPred (w : ℕ) : Mat :=
  if w ≤ 1 then [[1, 0, 0, 0, 0, 0, 0]] else [[0, 0, 0, 0, 0, 0, 0]]

/-- A concrete instantiation for evaluating train_model on a two-epoch run:
the weights are a single counter which each optimizer step increments, each
phase has one single-example batch with labels oneHotLabels, and the network
behaves as aliasPred. In epoch 1 training moves the weight 0 → 1 and the
validation predictions match the labels exactly (F1 = 1); in epoch 2 training
moves it 1 → 2 and validation predicts nothing (F1 = 0), so epoch 1 is the
best validation epoch and its phase-end weight is 1. -/
def aliasEnv : Ext ℕ Unit :=
  { fwdEval := fun w _ => (aliasPred w, aliasPred w)
    fwdDrop := fun w r _ => ((aliasPred w, aliasPred w), r)
    criterion := fun _ _ => 0
    optStep := fun _ w _ _ _ => w + 1
    datasetSize := fun _ => 1
    batches := fun _ _ => [{ inputs := (), labelCols := oneHotLabels, size0 := 1 }] }

/-- A concrete batch of 64 examples with the 7 per-class label columns and
padded sequence length 15, for evaluating the progress-log line of the batch
loop. -/
def logBatch : Batch Unit :=
  { inputs := ()
    labelCols := List.replicate 7 (List.replicate 64 false)
    size0 := 15 }

/-- A concrete instantiation whose train loader holds the single 64-example
batch logBatch. -/
def logEnv : Ext ℕ Unit :=
  { fwdEval := fun _ _ => ([], [])
    fwdDrop := fun _ r _ => (([], []), r)
    criterion := fun _ _ => 0
    optStep := fun _ w _ _ _ => w
    datasetSize := fun _ => 64
    batches := fun _ _ => [logBatch] }

section Lemmas

variable {W I : Type}

/-- Row i of the thresholded prediction matrix is the thresholding of row i. -/
lemma predictMatrix_getD_row (m : Mat) (i : ℕ) :
    (predictMatrix m).getD i []
      = (m.getD i []).map (fun p => decide ((0.4 : ℚ) < p)) := by
  simp only [predictMatrix, thresholdPred, List.getD_eq_getElem?_getD, List.getElem?_map]
  cases m[i]? <;> simp

/-- Entry j of a thresholded row is the thresholding of entry j (out-of-range
entries defaulting to 0 on the probability side and to a negative prediction
on the label side). -/
lemma map_decide_getD (row : List ℚ) (j : ℕ) :
    (row.map (fun p => decide ((0.4 : ℚ) < p))).getD j false
      = decide ((0.4 : ℚ) < row.getD j 0) := by
  simp only [List.getD_eq_getElem?_getD, List.getElem?_map]
  cases row[j]? with
  | none => simp; norm_num
  | some p => simp

/-- Entrywise description of predicted = torch.where(pred > 0.4, ones, zeros). -/
lemma predictMatrix_getD (m : Mat) (i j : ℕ) :
    ((predictMatrix m).getD i []).getD j false
      = decide ((0.4 : ℚ) < (m.getD i []).getD j 0) := by
  rw [predictMatrix_getD_row, map_decide_getD]

/-- Folding the batch loop accumulates exactly the weighted losses recorded by
batchLossList: running_loss grows by the sum of loss·inputs.size(0). -/
lemma foldl_processBatch_running_loss (E : Ext W I) (phase : Phase) (lr : ℚ)
    (dsSize nBatches epoch : ℕ) :
    ∀ (ibs : List (ℕ × Batch I)) (acc : PhaseAcc W),
      (List.foldl (processBatch E phase lr dsSize nBatches epoch) acc ibs).running_loss
        = acc.running_loss
          + ((batchLossList E phase lr acc.w acc.rng ibs).map
              (fun p => p.1 * ((p.2 : ℕ) : ℚ))).sum
  | [], acc => by simp [batchLossList]
  | ib :: rest, acc => by
    rw [List.foldl_cons,
      foldl_processBatch_running_loss E phase lr dsSize nBatches epoch rest]
    simp only [batchLossList, processBatch, List.map_cons, List.sum_cons]
    ring

/-- The epoch loop never writes the optimizer's learning rate nor the
scheduler: scheduler.step() is commented out in the source (main.py line 64). -/
lemma runEpochPhase_optLr_sched (E : Ext W I) (epoch : ℕ) (phase : Phase)
    (s : TrainState W) :
    (runEpochPhase E epoch phase s).optLr = s.optLr
      ∧ (runEpochPhase E epoch phase s).sched = s.sched := by
  rw [runEpochPhase]
  dsimp only
  refine ⟨?_, ?_⟩ <;> (split <;> rfl)

/-- best_f1 never decreases across one phase. -/
lemma best_f1_le_runEpochPhase (E : Ext W I) (epoch : ℕ) (phase : Phase)
    (s : TrainState W) :
    s.best_f1 ≤ (runEpochPhase E epoch phase s).best_f1 := by
  rw [runEpochPhase]
  dsimp only
  split
  next h => exact le_of_lt h.2
  next h => exact le_refl _

/-- best_f1 never decreases across one epoch. -/
lemma best_f1_le_runEpoch (E : Ext W I) (epoch : ℕ) (s : TrainState W) :
    s.best_f1 ≤ (runEpoch E epoch s).best_f1 :=
  le_trans (best_f1_le_runEpochPhase E epoch Phase.train s)
    (best_f1_le_runEpochPhase E epoch Phase.val _)

/-- best_f1 never decreases across the epoch loop. -/
lemma best_f1_le_foldl (E : Ext W I) :
    ∀ (es : List ℕ) (s : TrainState W),
      s.best_f1 ≤ (es.foldl (fun t e => runEpoch E e t) s).best_f1
  | [], _ => le_refl _
  | e :: rest, s =>
    le_trans (best_f1_le_runEpoch E e s) (best_f1_le_foldl E rest _)

/-- model_loss[train][epoch] is assigned epoch_loss = running_loss / dataset
size by the train phase of an epoch. -/
lemma runEpochPhase_lossTrain (E : Ext W I) (epoch : ℕ) (s : TrainState W) :
    (runEpochPhase E epoch Phase.train s).lossTrain
      = s.lossTrain.set epoch
          ((phaseFold E epoch Phase.train s).running_loss
            / ((E.datasetSize Phase.train : ℕ) : ℚ)) := by
  rw [runEpochPhase]
  dsimp only
  split
  next h => exact absurd h.1 (by simp)
  next h => simp

/-- model_loss[val][epoch] is assigned epoch_loss = running_loss / dataset
size by the val phase of an epoch. -/
lemma runEpochPhase_lossVal (E : Ext W I) (epoch : ℕ) (s : TrainState W) :
    (runEpochPhase E epoch Phase.val s).lossVal
      = s.lossVal.set epoch
          ((phaseFold E epoch Phase.val s).running_loss
            / ((E.datasetSize Phase.val : ℕ) : ℚ)) := by
  rw [runEpochPhase]
  dsimp only
  split <;> simp

/-- In eval mode the batch loop of test_model never consults the randomness
stream nor the train-mode (dropout) forward: the accumulated (y_true, y_pred)
matrices are the same whatever the stream and whatever the dropout forward. -/
lemma testFold_eval_rng_free (E : Ext W I)
    (d : W → List ℚ → I → (Mat × Mat) × List ℚ) (w : W) :
    ∀ (loader : List (Batch I)) (pair : BMat × BMat) (r1 r2 : List ℚ),
      (loader.foldl (testStep { E with fwdDrop := d } Mode.eval w) (pair, r1)).1
        = (loader.foldl (testStep E Mode.eval w) (pair, r2)).1
  | [], _, _, _ => rfl
  | b :: rest, pair, r1, r2 => by
    rw [List.foldl_cons, List.foldl_cons]
    exact testFold_eval_rng_free E d w rest _ r1 r2

/-- trainModel's final load of best_model_wts changes neither the learning
rate, nor the scheduler, nor the best metrics: the epoch-loop facts transfer. -/
lemma trainModel_optLr_sched (E : Ext W I) (n : ℕ) (s0 : TrainState W) :
    ((trainModel E n s0).1).optLr
        = ((List.range n).foldl (fun t e => runEpoch E e t) s0).optLr
      ∧ ((trainModel E n s0).1).sched
        = ((List.range n).foldl (fun t e => runEpoch E e t) s0).sched
      ∧ ((trainModel E n s0).1).best_f1
        = ((List.range n).foldl (fun t e => runEpoch E e t) s0).best_f1 :=
  ⟨rfl, rfl, rfl⟩

/-- Neither phase of an epoch writes optLr or sched, so the whole epoch loop
keeps them at their initial values. -/
lemma foldl_runEpoch_optLr_sched (E : Ext W I) :
    ∀ (es : List ℕ) (s : TrainState W),
      (es.foldl (fun t e => runEpoch E e t) s).optLr = s.optLr
        ∧ (es.foldl (fun t e => runEpoch E e t) s).sched = s.sched
  | [], _ => ⟨rfl, rfl⟩
  | e :: rest, s => by
    rw [List.foldl_cons]
    refine ⟨?_, ?_⟩
    · rw [(foldl_runEpoch_optLr_sched E rest _).1, runEpoch,
        (runEpochPhase_optLr_sched E e Phase.val _).1,
        (runEpochPhase_optLr_sched E e Phase.train _).1]
    · rw [(foldl_runEpoch_optLr_sched E rest _).2, runEpoch,
        (runEpochPhase_optLr_sched E e Phase.val _).2,
        (runEpochPhase_optLr_sched E e Phase.train _).2]

/-- When the phase is val and the epoch's F1 strictly exceeds the best F1 so
far, the best metrics are set to the epoch's metrics, best_model_wts is
re-bound to a reference to the live parameters, and the checkpoint file is
written with the phase-end weights. -/
lemma runEpochPhase_best_update (E : Ext W I) (epoch : ℕ) (phase : Phase)
    (s : TrainState W)
    (h : phase = Phase.val ∧ phaseF1 E epoch phase s > s.best_f1) :
    (runEpochPhase E epoch phase s).best_f1 = phaseF1 E epoch phase s
      ∧ (runEpochPhase E epoch phase s).best_acc = phaseAccScore E epoch phase s
      ∧ (runEpochPhase E epoch phase s).best_precision = phasePrecision E epoch phase s
      ∧ (runEpochPhase E epoch phase s).best_recall = phaseRecall E epoch phase s
      ∧ (runEpochPhase E epoch phase s).checkpointFile
          = some (phaseFold E epoch phase s).w
      ∧ (runEpochPhase E epoch phase s).best_model_wts = StateDict.ref := by
  rw [runEpochPhase]
  dsimp only
  split
  next => exact ⟨rfl, rfl, rfl, rfl, rfl, rfl⟩
  next hc => exact absurd h hc

/-- When the phase is train, or the epoch's F1 does not strictly exceed the
best F1 so far, every best-checkpoint field is left untouched. -/
lemma runEpochPhase_best_nochange (E : Ext W I) (epoch : ℕ) (phase : Phase)
    (s : TrainState W)
    (h : ¬(phase = Phase.val ∧ phaseF1 E epoch phase s > s.best_f1)) :
    (runEpochPhase E epoch phase s).best_f1 = s.best_f1
      ∧ (runEpochPhase E epoch phase s).best_acc = s.best_acc
      ∧ (runEpochPhase E epoch phase s).best_precision = s.best_precision
      ∧ (runEpochPhase E epoch phase s).best_recall = s.best_recall
      ∧ (runEpochPhase E epoch phase s).checkpointFile = s.checkpointFile
      ∧ (runEpochPhase E epoch phase s).best_model_wts = s.best_model_wts := by
  rw [runEpochPhase]
  dsimp only
  split
  next hc => exact absurd hc h
  next => exact ⟨rfl, rfl, rfl, rfl, rfl, rfl⟩

end Lemmas

section Claims

variable {W I : Type}

/-- Claim C3: for every example and every class c, the predicted label is
positive if and only if the post-sigmoid probability is strictly greater than
0.4, and a probability exactly equal to 0.4 yields a negative prediction;
both the training/validation loop (processBatch, main.py line 90) and the
evaluation routine (testStep, main.py line 158) form their predictions with
this same predictMatrix. -/
theorem c3_strict_threshold :
    (∀ (m : Mat) (i j : ℕ),
      (((predictMatrix m).getD i []).getD j false = true
        ↔ (0.4 : ℚ) < (m.getD i []).getD j 0))
    ∧ (∀ (m : Mat) (i j : ℕ),
        (m.getD i []).getD j 0 = 0.4
          → ((predictMatrix m).getD i []).getD j false = false)
    ∧ (∀ (W I : Type) (E : Ext W I) (phase : Phase) (lr : ℚ)
        (dsSize nBatches epoch : ℕ) (acc : PhaseAcc W) (ib : ℕ × Batch I),
        (processBatch E phase lr dsSize nBatches epoch acc ib).y_pred
          = acc.y_pred
            ++ predictMatrix (modelForward E
                (if phase = Phase.train then Mode.train else Mode.eval)
                acc.w acc.rng ib.2.inputs).1.2)
    ∧ (∀ (W I : Type) (E : Ext W I) (mode : Mode) (w : W)
        (acc : (BMat × BMat) × List ℚ) (b : Batch I),
        (testStep E mode w acc b).1.2
          = acc.1.2 ++ predictMatrix (modelForward E mode w acc.2 b.inputs).1.2) := by
  refine ⟨fun m i j => ?_, fun m i j h => ?_, fun _ _ _ _ _ _ _ _ _ _ => rfl,
    fun _ _ _ _ _ _ _ => rfl⟩
  · rw [predictMatrix_getD]
    exact decide_eq_true_iff
  · rw [predictMatrix_getD, h]
    simp

/-- Witness for C3 at the concrete boundary probability 0.4: the single entry
of the probability matrix [[0.4]] is predicted negative. -/
theorem c3_strict_threshold_witness :
    ((predictMatrix [[(0.4 : ℚ)]]).getD 0 []).getD 0 false = false :=
  c3_strict_threshold.2.1 [[(0.4 : ℚ)]] 0 0 (by with_unfolding_all rfl)

/-- Claim C4: the best-checkpoint state (best accuracy/precision/recall/F1
and the persisted checkpoint file) is updated exactly when the phase is val
and the epoch's F1 strictly exceeds the best F1 seen so far; the initial best
F1 is 0.0; consequently the best validation F1 associated with the persisted
checkpoint never decreases, across each phase, each epoch, and the whole
train_model run. -/
theorem c4_best_checkpoint (E : Ext W I) :
    (∀ (w0 : W) (rng0 : List ℚ) (lr : ℚ) (sch : StepLRState) (n : ℕ),
      (initTrainState w0 rng0 lr sch n).best_f1 = 0)
    ∧ (∀ (epoch : ℕ) (phase : Phase) (s : TrainState W),
        (phase = Phase.val ∧ phaseF1 E epoch phase s > s.best_f1 →
          (runEpochPhase E epoch phase s).best_f1 = phaseF1 E epoch phase s
            ∧ (runEpochPhase E epoch phase s).best_acc = phaseAccScore E epoch phase s
            ∧ (runEpochPhase E epoch phase s).best_precision
                = phasePrecision E epoch phase s
            ∧ (runEpochPhase E epoch phase s).best_recall
                = phaseRecall E epoch phase s
            ∧ (runEpochPhase E epoch phase s).checkpointFile
                = some (phaseFold E epoch phase s).w)
          ∧ (¬(phase = Phase.val ∧ phaseF1 E epoch phase s > s.best_f1) →
            (runEpochPhase E epoch phase s).best_f1 = s.best_f1
              ∧ (runEpochPhase E epoch phase s).best_acc = s.best_acc
              ∧ (runEpochPhase E epoch phase s).best_precision = s.best_precision
              ∧ (runEpochPhase E epoch phase s).best_recall = s.best_recall
              ∧ (runEpochPhase E epoch phase s).checkpointFile = s.checkpointFile))
    ∧ (∀ (epoch : ℕ) (phase : Phase) (s : TrainState W),
        s.best_f1 ≤ (runEpochPhase E epoch phase s).best_f1)
    ∧ (∀ (epoch : ℕ) (s : TrainState W), s.best_f1 ≤ (runEpoch E epoch s).best_f1)
    ∧ (∀ (n : ℕ) (s0 : TrainState W),
        s0.best_f1 ≤ ((trainModel E n s0).1).best_f1) := by
  refine ⟨fun _ _ _ _ _ => rfl, fun epoch phase s => ⟨fun h => ?_, fun h => ?_⟩,
    best_f1_le_runEpochPhase E, best_f1_le_runEpoch E, fun n s0 => ?_⟩
  · have u := runEpochPhase_best_update E epoch phase s h
    exact ⟨u.1, u.2.1, u.2.2.1, u.2.2.2.1, u.2.2.2.2.1⟩
  · have u := runEpochPhase_best_nochange E epoch phase s h
    exact ⟨u.1, u.2.1, u.2.2.1, u.2.2.2.1, u.2.2.2.2.1⟩
  · rw [(trainModel_optLr_sched E n s0).2.2]
    exact best_f1_le_foldl E (List.range n) s0

/-- Witness for C4 at a concrete input: a train-phase step on a freshly
initialized state leaves the best F1 and the checkpoint file unchanged. -/
theorem c4_best_checkpoint_witness :
    (runEpochPhase probeEnv 0 Phase.train
        (initTrainState 0 [] 1 ⟨3, 1 / 10⟩ 1)).best_f1
      = (initTrainState (0 : ℕ) [] 1 ⟨3, 1 / 10⟩ 1).best_f1 :=
  (((c4_best_checkpoint probeEnv).2.1 0 Phase.train
    (initTrainState 0 [] 1 ⟨3, 1 / 10⟩ 1)).2 (by with_unfolding_all decide)).1

/-- Claim C7: for a fixed matrix of predicted probabilities and thresholds
t1 ≤ t2, the strict-greater-than decision rule produces at most as many
positive predictions at t2 as at t1. -/
theorem c7_threshold_monotone (m : Mat) (t1 t2 : ℚ) (h : t1 ≤ t2) :
    countPos (thresholdPred t2 m) ≤ countPos (thresholdPred t1 m) := by
  unfold countPos thresholdPred
  rw [List.map_map, List.map_map]
  refine List.sum_le_sum fun row _ => ?_
  simp only [Function.comp_apply, List.countP_map]
  refine List.countP_mono_left fun p _ hp => ?_
  simp only [Function.comp_apply, decide_eq_true_eq] at hp ⊢
  exact lt_of_le_of_lt h hp

/-- Witness for C7 at a concrete input: raising the threshold from 0.4 to 0.5
over the probability row [1, 0] does not increase the positive count. -/
theorem c7_threshold_monotone_witness :
    countPos (thresholdPred (1 / 2) [[1, 0]])
      ≤ countPos (thresholdPred (0.4 : ℚ) [[1, 0]]) :=
  c7_threshold_monotone [[1, 0]] (0.4 : ℚ) (1 / 2) (by norm_num)

/-- Claim C2 as amended: for every phase of every epoch, running_loss
accumulates the per-batch loss weighted by inputs.size(0) — the padded
sequence length of the batch's TEXT tensor (batch_first=False), not the
batch's example count (main.py line 102) — the reported epoch loss — the
value recorded in model_loss[phase][epoch] — equals that weighted sum divided
by the phase dataset size (main.py line 112), and it is nonnegative whenever
every batch loss is nonnegative. -/
theorem c2_epoch_loss (E : Ext W I) (epoch : ℕ) (s : TrainState W)
    (phase : Phase) :
    (phaseFold E epoch phase s).running_loss
        = ((batchLossList E phase s.optLr s.weights s.rng
              ((E.batches epoch phase).enum)).map
            (fun p => p.1 * ((p.2 : ℕ) : ℚ))).sum
    ∧ (runEpochPhase E epoch Phase.train s).lossTrain
        = s.lossTrain.set epoch
            ((phaseFold E epoch Phase.train s).running_loss
              / ((E.datasetSize Phase.train : ℕ) : ℚ))
    ∧ (runEpochPhase E epoch Phase.val s).lossVal
        = s.lossVal.set epoch
            ((phaseFold E epoch Phase.val s).running_loss
              / ((E.datasetSize Phase.val : ℕ) : ℚ))
    ∧ ((∀ p ∈ batchLossList E phase s.optLr s.weights s.rng
          ((E.batches epoch phase).enum), 0 ≤ p.1)
        → 0 ≤ (phaseFold E epoch phase s).running_loss
              / ((E.datasetSize phase : ℕ) : ℚ)) := by
  have hsum : (phaseFold E epoch phase s).running_loss
      = ((batchLossList E phase s.optLr s.weights s.rng
            ((E.batches epoch phase).enum)).map
          (fun p => p.1 * ((p.2 : ℕ) : ℚ))).sum := by
    rw [phaseFold, foldl_processBatch_running_loss]
    simp
  refine ⟨hsum, runEpochPhase_lossTrain E epoch s, runEpochPhase_lossVal E epoch s,
    fun h => ?_⟩
  rw [hsum]
  refine div_nonneg (List.sum_nonneg fun x hx => ?_) (by positivity)
  obtain ⟨p, hp, rfl⟩ := List.mem_map.mp hx
  exact mul_nonneg (h p hp) (by positivity)

/-- Claim C2 (counterexample): the batch loop accumulates
running_loss += loss.item() * inputs.size(0) (main.py line 102). On the
single padEnv training batch — 2 examples, padded sequence length 5, batch
loss 1 — the accumulated running_loss is 1 * 5 = 5, while weighting the loss
by the batch's example count, as the claim states, would give 1 * 2 = 2. -/
theorem c2_loss_weight_cex :
    (phaseFold padEnv 0 Phase.train (initTrainState 0 [] 1 ⟨3, 1 / 10⟩ 1)).running_loss = 5
    ∧ (batchLossList padEnv Phase.train 1 0 []
        ((padEnv.batches 0 Phase.train).enum)).map (fun p => p.1) = [1]
    ∧ ((padEnv.batches 0 Phase.train).map (fun b => b.numExamples)) = [2]
    ∧ (5 : ℚ) ≠ 1 * 2 :=
  ⟨by with_unfolding_all rfl, by with_unfolding_all rfl,
    by with_unfolding_all rfl, by with_unfolding_all decide⟩

/-- Witness for C2 at a concrete input: with unit batch losses the reported
epoch loss is nonnegative. -/
theorem c2_epoch_loss_witness :
    0 ≤ (phaseFold probeBatchEnv 0 Phase.train
          (initTrainState 0 [] 1 ⟨3, 1 / 10⟩ 1)).running_loss
        / ((probeBatchEnv.datasetSize Phase.train : ℕ) : ℚ) :=
  (c2_epoch_loss probeBatchEnv 0 (initTrainState 0 [] 1 ⟨3, 1 / 10⟩ 1)
    Phase.train).2.2.2 (by with_unfolding_all decide)

/-- Claim C8: evaluation is deterministic. test_model runs the forward path
in eval mode only, where the network consults no randomness (spec §4.1:
dropout is active only during training, modelled in modelForward), so two
runs on the same checkpoint weights and the same held-out batch stream —
whatever the ambient randomness stream and whatever the train-mode dropout
forward — return identical (y_true, y_pred) matrices and identical
accuracy/precision/recall/F1 metrics. -/
theorem c8_test_deterministic (E : Ext W I)
    (d : W → List ℚ → I → (Mat × Mat) × List ℚ) (m : ModelObj W)
    (r1 r2 : List ℚ) (loader : List (Batch I)) :
    testModel { E with fwdDrop := d } m r1 loader = testModel E m r2 loader := by
  have h := testFold_eval_rng_free E d m.params loader ([], []) r1 r2
  rw [testModel, testModel]
  dsimp only
  rw [h]

/-- Claim C9: the evaluation routine performs no parameter updates: whatever
the batch stream, the model's learnable parameters after test_model returns
are identical to the parameters before the call; only the mode flag has been
switched to eval by model.eval(). -/
theorem c9_test_preserves_params (E : Ext W I) (m : ModelObj W)
    (rng : List ℚ) (loader : List (Batch I)) :
    ((testModel E m rng loader).1).params = m.params
      ∧ ((testModel E m rng loader).1).mode = Mode.eval :=
  ⟨rfl, rfl⟩

/-- Claim C10: the recognized options momentum, weight_decay and num_layers
are dead: they are parsed (main.py lines 271-284) but passed neither to the
Adam optimizer (line 208) nor to the model constructor (lines 196-203), and
train_model never reads args; so two runs of main differing only in those
options produce identical observable outcomes — model name, trained model
state, persisted checkpoint, loss curves handed to the plotter, and test
outputs. -/
theorem c10_dead_options (M : MainEnv W I) (cfg : Config) (mo wd : ℚ)
    (nl : ℕ) :
    mainRun M { cfg with momentum := mo, weight_decay := wd, num_layers := nl }
      = mainRun M cfg := by
  cases cfg
  rfl

/-- Claim C1 (evaluated at the failing input): on the two-epoch aliasEnv run
the best validation F1 (= 1) is achieved at the end of epoch 1, whose weights
(= 1) are exactly what torch.save persisted to the checkpoint file at that
moment; yet train_model returns the model with the last-epoch weights 2,
not 1. The cause: best_model_wts = model.state_dict() stores references to
the live parameter tensors, which the optimizer then mutates in place, so the
final model.load_state_dict(best_model_wts) reloads the current weights — a
no-op — despite the source's "deep copy the model" and "load best model
weights" comments (main.py lines 121, 139). -/
theorem c1_state_dict_alias :
    (trainModel aliasEnv 2 (initTrainState 0 [] 1 ⟨3, 1 / 10⟩ 2)).1.best_f1 = 1
    ∧ (trainModel aliasEnv 2 (initTrainState 0 [] 1 ⟨3, 1 / 10⟩ 2)).1.checkpointFile
        = some 1
    ∧ (trainModel aliasEnv 2 (initTrainState 0 [] 1 ⟨3, 1 / 10⟩ 2)).1.weights = 2
    ∧ (2 : ℕ) ≠ 1 :=
  ⟨by with_unfolding_all rfl, by with_unfolding_all rfl,
    by with_unfolding_all rfl, by decide⟩

/-- Claim C5 (counterexample): a concrete three-epoch training run with
initial learning rate 1, decay period step = 3 and factor gamma = 1/10. The
claim requires the rate to have been decayed by gamma after those 3 epochs
(specDecayedLr gives 1/10), but the optimizer's rate is still 1:
scheduler.step() is commented out (main.py line 64), so no decay ever
happens. -/
theorem c5_lr_never_decayed_cex :
    (trainModel probeEnv 3 (initTrainState 0 [] 1 ⟨3, 1 / 10⟩ 3)).1.optLr = 1
    ∧ specDecayedLr 1 (1 / 10) 3 3 = 1 / 10
    ∧ (1 : ℚ) ≠ 1 / 10 :=
  ⟨by with_unfolding_all rfl, by with_unfolding_all rfl,
    by with_unfolding_all decide⟩

/-- Claim C5 as amended: the step and gamma options configure the StepLR
scheduler, but train_model never invokes it (the scheduler.step() call is
commented out), so across any training run the optimizer's learning rate and
the scheduler state stay exactly as configured — the learning rate is never
decayed. -/
theorem c5_lr_constant (E : Ext W I) (n : ℕ) (s0 : TrainState W) :
    ((trainModel E n s0).1).optLr = s0.optLr
      ∧ ((trainModel E n s0).1).sched = s0.sched := by
  refine ⟨?_, ?_⟩
  · rw [(trainModel_optLr_sched E n s0).1,
      (foldl_runEpoch_optLr_sched E (List.range n) s0).1]
  · rw [(trainModel_optLr_sched E n s0).2.1,
      (foldl_runEpoch_optLr_sched E (List.range n) s0).2]

/-- Claim C6 (evaluated at the failing input): processing the first batch of
a training phase — logBatch, which holds 64 examples — emits a progress log
line whose example count is (batch_idx + 1) * len(labels) = 1 * 7 = 7, the
number of label columns (frame classes), while the number of examples
actually processed so far is 64. -/
theorem c6_log_count :
    (processBatch logEnv Phase.train 1 64 1 0 ⟨0, [], 0, [], [], [], 0⟩
        (0, logBatch)).logs = [⟨1, 7, 64, 100, 0⟩]
    ∧ (processBatch logEnv Phase.train 1 64 1 0 ⟨0, [], 0, [], [], [], 0⟩
        (0, logBatch)).examplesSeen = 64
    ∧ (7 : ℕ) ≠ 64 :=
  ⟨by with_unfolding_all rfl, by with_unfolding_all rfl, by decide⟩

end Claims

end FrameParser
